import Mathlib

/- Verification of the palo Alto simulator sources.

   The development shallowly embeds:
   - the CPU step pipeline of src/src/simulator/simulator.c
     (simulator_reset, simulator_read, simulator_write, get_modified_rsel,
     read_bus, compute_alu, do_shift, do_f1, do_f2, wb_registers,
     update_program_counters, simulator_step);
   - the breakpoint engine of src/src/psim.c (psim_simulate);
   - the UDP transport framing of the gui/udp_transport.c source
     (trp_append_tx, trp_send, trp_get_rx_data, trp_receive).

   C unsigned integers are embedded as Nat, with an explicit `% 2^w` or
   `&&& mask` exactly where the C code truncates (assignment to a narrower
   unsigned type).  Machine state is a record; arrays are embedded as
   functions from Nat, updated with Function.update. -/

namespace Palo

/-- Modelled from the spec: the `enum system_type` of simulator/simulator.h,
which is not under src/.  The code only distinguishes ALTO_I, ALTO_II_3KRAM
and "not ALTO_I". -/
inductive system_type where
  | ALTO_I
  | ALTO_II_1KROM
  | ALTO_II_2KROM
  | ALTO_II_3KRAM
deriving DecidableEq

/-- Modelled from the spec: task identifiers from microcode/microcode.h
(not under src/).  The emulator is the lowest-priority task, number 0. -/
def TASK_EMULATOR : Nat := 0

/-- Modelled from the spec: disk sector task id (microcode.h is not under
src/). -/
def TASK_DISK_SECTOR : Nat := 4

/-- Modelled from the spec: ethernet task id (microcode.h is not under
src/). -/
def TASK_ETHERNET : Nat := 7

/-- Modelled from the spec: disk word task id (microcode.h is not under
src/). -/
def TASK_DISK_WORD : Nat := 14

/-- Modelled from the spec: sixteen cooperative micro-tasks. -/
def TASK_NUM_TASKS : Nat := 16

/-- Constant from simulator.c: number of R registers. -/
def NUM_R_REGISTERS : Nat := 32

/-- Constant from simulator.c: bank bits of the MPC. -/
def MPC_BANK_MASK : Nat := 0xC00

/-- Constant from simulator.c: address bits of the MPC. -/
def MPC_ADDR_MASK : Nat := 0x3FF

/-- Constant from simulator.c: NUM_BANK_SLOTS = TASK_NUM_TASKS = 16 slots of
the extended-memory bank register file xm_banks. -/
def NUM_BANK_SLOTS : Nat := 16

/-- Constant from simulator.c: start of the extended-memory bank register
address range. -/
def XM_BANK_START : Nat := 0xFFE0

/-- Modelled from the spec: one main memory bank holds 64K words
(microcode.h, which defines MEMORY_SIZE, is not under src/). -/
def MEMORY_SIZE : Nat := 0x10000

/-- Modelled from the spec: bus source codes from microcode.h (not under
src/), standard Alto encoding. -/
def BS_READ_R : Nat := 0

/-- Modelled from the spec: bus source code, write R at write-back. -/
def BS_LOAD_R : Nat := 1

/-- Modelled from the spec: bus source code, no source selected. -/
def BS_NONE : Nat := 2

/-- Modelled from the spec: task-specific bus source, read S register. -/
def BS_RAM_READ_S_LOCATION : Nat := 3

/-- Modelled from the spec: task-specific bus source, load S register. -/
def BS_RAM_LOAD_S_LOCATION : Nat := 4

/-- Modelled from the spec: ethernet task-specific bus source EIDFCT. -/
def BS_ETH_EIDFCT : Nat := 4

/-- Modelled from the spec: disk task-specific bus source, read KSTAT. -/
def BS_DSK_READ_KSTAT : Nat := 3

/-- Modelled from the spec: disk task-specific bus source, read KDATA. -/
def BS_DSK_READ_KDATA : Nat := 4

/-- Modelled from the spec: bus source code, read memory data. -/
def BS_READ_MD : Nat := 5

/-- Modelled from the spec: bus source code, read mouse bits. -/
def BS_READ_MOUSE : Nat := 6

/-- Modelled from the spec: bus source code, read displacement from IR. -/
def BS_READ_DISP : Nat := 7

/-- Modelled from the spec: ALU function codes from microcode.h (not under
src/), standard Alto encoding, in the order listed by the spec. -/
def ALU_BUS : Nat := 0

/-- Modelled from the spec: ALU outputs T. -/
def ALU_T : Nat := 1

/-- Modelled from the spec: ALU outputs BUS or T. -/
def ALU_BUS_OR_T : Nat := 2

/-- Modelled from the spec: ALU outputs BUS and T. -/
def ALU_BUS_AND_T : Nat := 3

/-- Modelled from the spec: ALU outputs BUS xor T. -/
def ALU_BUS_XOR_T : Nat := 4

/-- Modelled from the spec: ALU outputs BUS plus 1. -/
def ALU_BUS_PLUS_1 : Nat := 5

/-- Modelled from the spec: ALU outputs BUS minus 1. -/
def ALU_BUS_MINUS_1 : Nat := 6

/-- Modelled from the spec: ALU outputs BUS plus T. -/
def ALU_BUS_PLUS_T : Nat := 7

/-- Modelled from the spec: ALU outputs BUS minus T. -/
def ALU_BUS_MINUS_T : Nat := 8

/-- Modelled from the spec: ALU outputs BUS minus T minus 1. -/
def ALU_BUS_MINUS_T_MINUS_1 : Nat := 9

/-- Modelled from the spec: ALU outputs BUS plus T plus 1. -/
def ALU_BUS_PLUS_T_PLUS_1 : Nat := 10

/-- Modelled from the spec: ALU outputs BUS plus the skip flag. -/
def ALU_BUS_PLUS_SKIP : Nat := 11

/-- Modelled from the spec: ALU outputs BUS and T, also signalling T
write-back from the ALU. -/
def ALU_BUS_AND_T_WB : Nat := 12

/-- Modelled from the spec: ALU outputs BUS and not T. -/
def ALU_BUS_AND_NOT_T : Nat := 13

/-- Modelled from the spec: F1 function codes from microcode.h (not under
src/), standard Alto encoding. -/
def F1_NONE : Nat := 0

/-- Modelled from the spec: F1 code, load MAR and start a memory cycle. -/
def F1_LOAD_MAR : Nat := 1

/-- Modelled from the spec: F1 code, arm a task switch. -/
def F1_TASK : Nat := 2

/-- Modelled from the spec: F1 code, block the current task. -/
def F1_BLOCK : Nat := 3

/-- Modelled from the spec: F1 code, shift L left by one. -/
def F1_LLSH1 : Nat := 4

/-- Modelled from the spec: F1 code, shift L right by one. -/
def F1_LRSH1 : Nat := 5

/-- Modelled from the spec: F1 code, rotate L by eight bits. -/
def F1_LLCY8 : Nat := 6

/-- Modelled from the spec: F1 code, route the constant ROM to the bus. -/
def F1_CONSTANT : Nat := 7

/-- Modelled from the spec: first task-specific F1 code. -/
def F1_SPECIFIC_THRESH : Nat := 8

/-- Modelled from the spec: RAM task F1 code SWMODE. -/
def F1_RAM_SWMODE : Nat := 8

/-- Modelled from the spec: RAM task F1 code WRTRAM. -/
def F1_RAM_WRTRAM : Nat := 9

/-- Modelled from the spec: RAM task F1 code RDRAM. -/
def F1_RAM_RDRAM : Nat := 10

/-- Modelled from the spec: RAM task F1 code, load the S register bank. -/
def F1_RAM_LOAD_SRB : Nat := 11

/-- Modelled from the spec: emulator F1 code SWMODE. -/
def F1_EMU_SWMODE : Nat := 8

/-- Modelled from the spec: emulator F1 code, load the reset mode register. -/
def F1_EMU_LOAD_RMR : Nat := 11

/-- Modelled from the spec: emulator F1 code, load the emulator S bank. -/
def F1_EMU_LOAD_ESRB : Nat := 13

/-- Modelled from the spec: emulator F1 code RSNF (read serial number). -/
def F1_EMU_RSNF : Nat := 14

/-- Modelled from the spec: emulator F1 code STARTF. -/
def F1_EMU_STARTF : Nat := 15

/-- Modelled from the spec: ethernet F1 code EILFCT. -/
def F1_ETH_EILFCT : Nat := 11

/-- Modelled from the spec: ethernet F1 code EPFCT. -/
def F1_ETH_EPFCT : Nat := 12

/-- Modelled from the spec: F2 function codes from microcode.h (not under
src/), standard Alto encoding. -/
def F2_NONE : Nat := 0

/-- Modelled from the spec: F2 code, branch on bus equal to zero. -/
def F2_BUSEQ0 : Nat := 1

/-- Modelled from the spec: F2 code, branch on shifter less than zero. -/
def F2_SHLT0 : Nat := 2

/-- Modelled from the spec: F2 code, branch on shifter equal to zero. -/
def F2_SHEQ0 : Nat := 3

/-- Modelled from the spec: F2 code, OR the low bus bits into NEXT. -/
def F2_BUS : Nat := 4

/-- Modelled from the spec: F2 code, branch on the ALU carry. -/
def F2_ALUCY : Nat := 5

/-- Modelled from the spec: F2 code, store the bus into memory. -/
def F2_STORE_MD : Nat := 6

/-- Modelled from the spec: F2 code, route the constant ROM to the bus. -/
def F2_CONSTANT : Nat := 7

/-- Modelled from the spec: emulator F2 code, branch on odd bus. -/
def F2_EMU_BUSODD : Nat := 8

/-- Modelled from the spec: emulator F2 code MAGIC (shifter variant). -/
def F2_EMU_MAGIC : Nat := 9

/-- Modelled from the spec: emulator F2 code, load DNS (do nova shift). -/
def F2_EMU_LOAD_DNS : Nat := 10

/-- Modelled from the spec: emulator F2 code ACDEST (modifies RSEL). -/
def F2_EMU_ACDEST : Nat := 11

/-- Modelled from the spec: emulator F2 code, load the IR register. -/
def F2_EMU_LOAD_IR : Nat := 12

/-- Modelled from the spec: emulator F2 code IDISP. -/
def F2_EMU_IDISP : Nat := 13

/-- Modelled from the spec: emulator F2 code ACSOURCE (modifies RSEL). -/
def F2_EMU_ACSOURCE : Nat := 14

/-- Modelled from the spec: MICROCODE_NEXT of microcode/microcode.h (not
under src/) extracts the ten-bit NEXT field, the low ten bits of the
micro-instruction word. -/
def MICROCODE_NEXT (mcode : Nat) : Nat := mcode &&& MPC_ADDR_MASK

/-- Modelled from the spec: the predecoded `struct microcode` emitted by
microcode_predecode (microcode/microcode.c is not under src/).  The fields
are exactly the ones simulator.c consumes. -/
structure microcode where
  task : Nat
  rsel : Nat
  aluf : Nat
  bs : Nat
  f1 : Nat
  f2 : Nat
  load_t : Bool
  load_l : Bool
  load_t_from_alu : Bool
  use_constant : Bool
  bs_use_crom : Bool
  const_addr : Nat
  ram_task : Bool
deriving DecidableEq

/-- The `struct simulator` state of simulator.c.  Register files and
memories are functions from Nat; the peripheral controllers are reduced to
the two values the embedded code reads (the ethernet address for RSNF and
the mouse bits for the mouse bus source). -/
structure simulator where
  sys_type : system_type
  error : Bool
  r : Nat → Nat
  s : Nat → Nat
  consts : Nat → Nat
  microcode : Nat → Nat
  task_mpc : Nat → Nat
  mem : Nat → Nat
  xm_banks : Nat → Nat
  sr_banks : Nat → Nat
  t : Nat
  l : Nat
  m : Nat
  mar : Nat
  ir : Nat
  mir : Nat
  mpc : Nat
  ctask : Nat
  ntask : Nat
  pending : Nat
  aluC0 : Bool
  skip : Bool
  carry : Bool
  dns : Bool
  task_switch : Bool
  rmr : Nat
  mem_cycle : Nat
  mem_task : Nat
  mem_low : Nat
  mem_high : Nat
  mem_extended : Bool
  mem_which : Nat
  cycle : Nat
  next_cycle : Nat
  ether_address : Nat
  mouse_bits : Nat

/-- Embedding of simulator_reset (simulator.c lines 252-291). -/
def simulator_reset (sim : simulator) : simulator :=
  { sim with
    r := fun _ => 0
    s := fun _ => 0
    mem := fun _ => 0
    xm_banks := fun _ => 0
    sr_banks := fun _ => 0
    task_mpc := fun task => task
    error := false
    t := 0, l := 0, m := 0, mar := 0, ir := 0, mir := 0, mpc := 0
    ctask := 0
    ntask := 0
    pending := 1 <<< TASK_EMULATOR
    aluC0 := false, skip := false, carry := false, dns := false
    rmr := 0xFFFF
    mem_cycle := 0
    mem_task := TASK_EMULATOR
    mem_low := 0xFFFF
    mem_high := 0xFFFF
    mem_extended := false
    mem_which := 0
    cycle := 0
    next_cycle := 0 }

/-- Range test of simulator_read and simulator_write (simulator.c lines
296-297 and 317-318): address >= XM_BANK_START and
address <= XM_BANK_START + NUM_BANK_SLOTS. -/
def is_xm_bank_address (address : Nat) : Bool :=
  XM_BANK_START ≤ address && address ≤ XM_BANK_START + NUM_BANK_SLOTS

/-- Index into xm_banks used by simulator_read and simulator_write:
address - XM_BANK_START.  The C array xm_banks has NUM_BANK_SLOTS
entries, so the access is in bounds only when this is < NUM_BANK_SLOTS. -/
def xm_bank_slot (address : Nat) : Nat := address - XM_BANK_START

/-- Embedding of simulator_read (simulator.c lines 293-312). -/
def simulator_read (sim : simulator) (address task : Nat)
    (extended_memory : Bool) : Nat :=
  if is_xm_bank_address address then
    0xFFF0 ||| sim.xm_banks (xm_bank_slot address)
  else
    let bank_number := if extended_memory then sim.xm_banks task &&& 0x3
                       else (sim.xm_banks task >>> 2) &&& 0x3
    sim.mem (bank_number * MEMORY_SIZE + address)

/-- Embedding of simulator_write (simulator.c lines 314-333). -/
def simulator_write (sim : simulator) (address data task : Nat)
    (extended_memory : Bool) : simulator :=
  if is_xm_bank_address address then
    { sim with xm_banks := Function.update sim.xm_banks (xm_bank_slot address) data }
  else
    let bank_number := if extended_memory then sim.xm_banks task &&& 0x3
                       else (sim.xm_banks task >>> 2) &&& 0x3
    { sim with mem := Function.update sim.mem (bank_number * MEMORY_SIZE + address) data }

/-- Embedding of do_shift (simulator.c lines 542-582).  Returns the shifter
output and the new nova carry.  In the F1_LRSH1 nova branch the source
tests the pointer `nova_carry` itself, not the value it points to; the
pointer is the address of a local of simulator_step and is never NULL, so
the branch always injects 0x8000. -/
def do_shift (sim : simulator) (mc : microcode) (nova_carry : Bool) :
    Nat × Bool :=
  let has_magic := mc.f2 = F2_EMU_MAGIC
  if mc.f1 = F1_LLSH1 then
    let res := (sim.l <<< 1) % 65536
    if has_magic then
      (res ||| (if sim.t &&& 0x8000 ≠ 0 then 1 else 0), nova_carry)
    else if sim.dns then
      (res ||| (if nova_carry then 1 else 0), decide (sim.l &&& 0x8000 ≠ 0))
    else (res, nova_carry)
  else if mc.f1 = F1_LRSH1 then
    let res := sim.l >>> 1
    if has_magic then
      (res ||| (if sim.t &&& 1 ≠ 0 then 0x8000 else 0), nova_carry)
    else if sim.dns then
      (res ||| 0x8000, decide (sim.l &&& 1 ≠ 0))
    else (res, nova_carry)
  else if mc.f1 = F1_LLCY8 then
    (((sim.l <<< 8) % 65536) ||| (sim.l >>> 8), nova_carry)
  else (sim.l, nova_carry)

/-- Embedding of get_modified_rsel (simulator.c lines 339-363).  C applies
`rsel &= ~0x3; rsel |= (~(ir >> k)) & 0x3`; the complement composed with
`& 0x3` keeps the complement of the low two bits, written here as
xor with 0x3. -/
def get_modified_rsel (sim : simulator) (mc : microcode) : Nat :=
  if mc.task = TASK_EMULATOR then
    if mc.f2 = F2_EMU_ACSOURCE then
      (mc.rsel &&& 0xFFFC) ||| (((sim.ir >>> 13) &&& 0x3) ^^^ 0x3)
    else if mc.f2 = F2_EMU_ACDEST ∨ mc.f2 = F2_EMU_LOAD_DNS then
      (mc.rsel &&& 0xFFFC) ||| (((sim.ir >>> 11) &&& 0x3) ^^^ 0x3)
    else mc.rsel
  else mc.rsel

/-- Embedding of read_bus (simulator.c lines 370-464).  Returns the bus
value together with the updated simulator state: the BS_READ_MD case
toggles mem_which, and an invalid bus source sets the error flag. -/
def read_bus (sim : simulator) (mc : microcode) (modified_rsel : Nat) :
    Nat × simulator :=
  if mc.use_constant then
    (sim.consts mc.const_addr, sim)
  else
    let output := if mc.bs_use_crom then sim.consts mc.const_addr else 0xFFFF
    if mc.bs = BS_READ_R then
      (output &&& sim.r modified_rsel, sim)
    else if mc.bs = BS_LOAD_R then
      (output &&& 0, sim)
    else if mc.bs = BS_NONE then
      if mc.task = TASK_EMULATOR ∧ mc.f1 = F1_EMU_RSNF then
        (output &&& (sim.ether_address &&& 0xFF00), sim)
      else (output, sim)
    else if mc.bs = BS_READ_MD then
      ((if sim.mem_which ≠ 0 then sim.mem_high else sim.mem_low),
       { sim with mem_which := 1 ^^^ sim.mem_which })
    else if mc.bs = BS_READ_MOUSE then
      (output &&& (0xFFF0 &&& sim.mouse_bits), sim)
    else if mc.bs = BS_READ_DISP then
      let t0 := sim.ir &&& 0x00FF
      let t1 := if (sim.ir &&& 0x300) ≠ 0 ∧ (sim.ir &&& 0x80) ≠ 0 then
                  t0 ||| 0xFF00
                else t0
      (output &&& t1, sim)
    else if mc.ram_task then
      if mc.bs = BS_RAM_READ_S_LOCATION then
        if mc.rsel = 0 then (output &&& sim.m, sim)
        else (output &&& sim.s (sim.sr_banks mc.task * NUM_R_REGISTERS + mc.rsel), sim)
      else if mc.bs = BS_RAM_LOAD_S_LOCATION then
        (output &&& 0xBEEF, sim)
      else (0, { sim with error := true })
    else if mc.task = TASK_ETHERNET ∧ mc.bs = BS_ETH_EIDFCT then
      (output &&& 0xFFFF, sim)
    else if (mc.task = TASK_DISK_SECTOR ∨ mc.task = TASK_DISK_WORD)
            ∧ (mc.bs = BS_DSK_READ_KSTAT ∨ mc.bs = BS_DSK_READ_KDATA) then
      (output &&& 0xFFFF, sim)
    else (0, { sim with error := true })

/-- The ALUF opcodes handled by the switch of compute_alu; any other value
falls to the default case, which raises the CPU error. -/
def alu_valid (aluf : Nat) : Bool :=
  aluf = ALU_BUS || aluf = ALU_T || aluf = ALU_BUS_OR_T ||
  aluf = ALU_BUS_AND_T || aluf = ALU_BUS_AND_T_WB || aluf = ALU_BUS_XOR_T ||
  aluf = ALU_BUS_PLUS_1 || aluf = ALU_BUS_MINUS_1 || aluf = ALU_BUS_PLUS_T ||
  aluf = ALU_BUS_MINUS_T || aluf = ALU_BUS_MINUS_T_MINUS_1 ||
  aluf = ALU_BUS_PLUS_T_PLUS_1 || aluf = ALU_BUS_PLUS_SKIP ||
  aluf = ALU_BUS_AND_NOT_T

/-- The 32-bit result of compute_alu's switch for each valid opcode. -/
def alu_res (aluf a b : Nat) (skip : Bool) : Nat :=
  if aluf = ALU_BUS then a
  else if aluf = ALU_T then b
  else if aluf = ALU_BUS_OR_T then a ||| b
  else if aluf = ALU_BUS_AND_T ∨ aluf = ALU_BUS_AND_T_WB then a &&& b
  else if aluf = ALU_BUS_XOR_T then a ^^^ b
  else if aluf = ALU_BUS_PLUS_1 then a + 1
  else if aluf = ALU_BUS_MINUS_1 then a + 0xFFFF
  else if aluf = ALU_BUS_PLUS_T then a + b
  else if aluf = ALU_BUS_MINUS_T then a + ((b ^^^ 0xFFFF) &&& 0xFFFF) + 1
  else if aluf = ALU_BUS_MINUS_T_MINUS_1 then a + ((b ^^^ 0xFFFF) &&& 0xFFFF)
  else if aluf = ALU_BUS_PLUS_T_PLUS_1 then a + b + 1
  else if aluf = ALU_BUS_PLUS_SKIP then a + (if skip then 1 else 0)
  else if aluf = ALU_BUS_AND_NOT_T then (a &&& (b ^^^ 0xFFFF)) &&& 0xFFFF
  else 0xDEAD

/-- Embedding of compute_alu (simulator.c lines 472-533).  Returns the
16-bit ALU output, the carry (bit 16 of the 32-bit compute) and the
updated state (an unknown ALUF sets the error flag and yields 0xDEAD).
C complements the 32-bit b and masks with 0xFFFF; that is the xor with
0xFFFF in alu_res. -/
def compute_alu (sim : simulator) (mc : microcode) (bus : Nat) :
    Nat × Bool × simulator :=
  if alu_valid mc.aluf then
    let res := alu_res mc.aluf bus sim.t sim.skip
    (res % 65536, decide (res &&& 0x10000 ≠ 0), sim)
  else (0xDEAD, false, { sim with error := true })

/-- Embedding of the task scan in do_f1 F1_TASK (simulator.c lines
634-639): for tmp = TASK_NUM_TASKS; tmp--;, returning the first (highest)
task number whose pending bit is set. -/
def find_pending_task (pending : Nat) : Nat → Option Nat
  | 0 => none
  | n + 1 => if pending &&& (1 <<< n) ≠ 0 then some n else find_pending_task pending n

/-- Embedding of do_f1 (simulator.c lines 589-710).  The F1 codes up to
F1_CONSTANT are handled by the first switch (F1_NONE falls through); the
RAM-task section and the emulator task-specific section follow. -/
def do_f1 (sim : simulator) (mc : microcode) (bus alu shifter_output : Nat) :
    simulator :=
  if mc.f1 = F1_CONSTANT ∨ mc.f1 = F1_LLSH1 ∨ mc.f1 = F1_LRSH1 ∨ mc.f1 = F1_LLCY8 then
    sim
  else if mc.f1 = F1_LOAD_MAR then
    let sim1 := { sim with
      mar := alu
      mem_cycle := 0
      mem_task := mc.task
      mem_low := 0xFFFF
      mem_high := 0xFFFF
      mem_extended := if sim.sys_type ≠ system_type.ALTO_I then
                        decide (mc.f2 = F2_STORE_MD)
                      else false
      mem_which := 0 }
    let sim2 := { sim1 with
      mem_low := simulator_read sim1 sim1.mar sim1.mem_task sim1.mem_extended }
    let addr := if sim2.sys_type = system_type.ALTO_I then 1 ||| sim2.mar
                else 1 ^^^ sim2.mar
    { sim2 with
      mem_high := simulator_read sim2 addr sim2.mem_task sim2.mem_extended }
  else if mc.f1 = F1_TASK then
    match find_pending_task sim.pending TASK_NUM_TASKS with
    | some tmp => { sim with ntask := tmp }
    | none => sim
  else if mc.f1 = F1_BLOCK then
    if mc.task = TASK_EMULATOR then
      { sim with error := true }
    else
      { sim with pending := sim.pending &&& (0xFFFF ^^^ ((1 <<< mc.task) % 65536)) }
  else
    if mc.ram_task ∧ mc.f1 = F1_RAM_SWMODE ∧ mc.task ≠ TASK_EMULATOR then
      { sim with error := true }
    else
      let srb := if sim.sys_type = system_type.ALTO_II_3KRAM then (bus >>> 1) &&& 0x7 else 0
      let sim3 :=
        if mc.ram_task ∧ mc.f1 = F1_RAM_LOAD_SRB ∧ mc.task ≠ TASK_EMULATOR then
          { sim with sr_banks := Function.update sim.sr_banks mc.task srb }
        else sim
      if mc.task = TASK_EMULATOR then
        if mc.f1 = F1_EMU_LOAD_RMR then { sim3 with rmr := bus }
        else if mc.f1 = F1_EMU_LOAD_ESRB then
          { sim3 with sr_banks := Function.update sim3.sr_banks mc.task srb }
        else if mc.f1 = F1_EMU_SWMODE ∨ mc.f1 = F1_EMU_RSNF ∨ mc.f1 = F1_EMU_STARTF then
          sim3
        else if F1_SPECIFIC_THRESH ≤ mc.f1 then { sim3 with error := true }
        else sim3
      else sim3

/-- Embedding of do_f2 (simulator.c lines 719-787).  Returns the next_extra
bits together with the updated state. -/
def do_f2 (sim : simulator) (mc : microcode) (bus alu shifter_output : Nat) :
    Nat × simulator :=
  if mc.f2 = F2_NONE ∨ mc.f2 = F2_CONSTANT then (0, sim)
  else if mc.f2 = F2_BUSEQ0 then ((if bus = 0 then 1 else 0), sim)
  else if mc.f2 = F2_SHLT0 then ((if shifter_output &&& 0x8000 ≠ 0 then 1 else 0), sim)
  else if mc.f2 = F2_SHEQ0 then ((if shifter_output = 0 then 1 else 0), sim)
  else if mc.f2 = F2_BUS then (bus &&& MPC_ADDR_MASK, sim)
  else if mc.f2 = F2_ALUCY then ((if sim.aluC0 then 1 else 0), sim)
  else if mc.f2 = F2_STORE_MD then
    if mc.f1 ≠ F1_LOAD_MAR ∨ sim.sys_type = system_type.ALTO_I then
      let addr := if sim.mem_which ≠ 0 then
                    (if sim.sys_type = system_type.ALTO_I then 1 ||| sim.mar
                     else 1 ^^^ sim.mar)
                  else sim.mar
      let sim1 := simulator_write sim addr bus sim.mem_task sim.mem_extended
      (0, { sim1 with mem_which := 1 ^^^ sim1.mem_which })
    else (0, sim)
  else if mc.task = TASK_EMULATOR then
    if mc.f2 = F2_EMU_BUSODD then (bus &&& 1, sim)
    else if mc.f2 = F2_EMU_LOAD_IR then
      (((bus >>> 8) &&& 0x7) ||| (if bus &&& 0x8000 ≠ 0 then 0x8 else 0),
       { sim with ir := bus, skip := false })
    else (0, sim)
  else (0, sim)

/-- Embedding of wb_registers (simulator.c lines 795-829). -/
def wb_registers (sim : simulator) (mc : microcode)
    (modified_rsel bus alu shifter_output : Nat) (alu_carry : Bool) :
    simulator :=
  let sim1 :=
    if ¬mc.use_constant then
      if mc.bs = BS_LOAD_R then
        { sim with r := Function.update sim.r modified_rsel shifter_output }
      else if mc.ram_task ∧ mc.bs = BS_RAM_LOAD_S_LOCATION then
        let sidx := sim.sr_banks mc.task * NUM_R_REGISTERS + mc.rsel
        { sim with s := Function.update sim.s sidx sim.m }
      else sim
    else sim
  let sim2 :=
    if mc.load_l then
      { sim1 with
        l := alu
        m := if mc.task = TASK_EMULATOR then alu else sim1.m
        aluC0 := alu_carry }
    else sim1
  if mc.load_t then
    { sim2 with t := if mc.load_t_from_alu then alu else bus }
  else sim2

/-- Embedding of update_program_counters (simulator.c lines 835-864). -/
def update_program_counters (sim : simulator) (next_extra : Nat) : simulator :=
  let ctask := sim.ctask
  let mpc := sim.task_mpc ctask
  let mcode := sim.microcode mpc
  let sim1 := { sim with
    task_mpc := Function.update sim.task_mpc ctask
      ((mpc &&& MPC_BANK_MASK) ||| MICROCODE_NEXT mcode ||| next_extra)
    mir := mcode
    mpc := mpc
    ctask := sim.ntask
    cycle := sim.cycle + 1 }
  if sim1.mem_cycle ≠ 0xFFFF then
    if 10 ≤ sim1.mem_cycle then { sim1 with mem_cycle := 0xFFFF }
    else { sim1 with mem_cycle := sim1.mem_cycle + 1 }
  else sim1

/-- Embedding of simulator_step (simulator.c lines 866-920).  The
predecoder microcode_predecode is not under src/; per the spec it is a pure
function of (sys_type, mpc, mir, ctask), so the step is parameterized by
the predecoded microinstruction, whose task field predecode sets to the
current task. -/
def simulator_step (sim : simulator) (mcIn : microcode) : simulator :=
  if sim.error then sim
  else
    let mc := { mcIn with task := sim.ctask }
    let modified_rsel := get_modified_rsel sim mc
    let br := read_bus sim mc modified_rsel
    let bus := br.1
    let simA := br.2
    if simA.error then simA
    else
      let ar := compute_alu simA mc bus
      let alu := ar.1
      let alu_carry := ar.2.1
      let simB := ar.2.2
      if simB.error then simB
      else
        let sh := do_shift simB mc simB.carry
        let shifter_output := sh.1
        let simC := do_f1 simB mc bus alu shifter_output
        if simC.error then simC
        else
          let fr := do_f2 simC mc bus alu shifter_output
          let next_extra := fr.1
          let simD := fr.2
          if simD.error then simD
          else
            let simE := wb_registers simD mc modified_rsel bus alu
                          shifter_output alu_carry
            update_program_counters simE next_extra

/-- Constant from udp_transport.c: maximum UDP packet size in bytes. -/
def UDP_PACKET_SIZE : Nat := 1024

/-- Embedding of trp_append_tx (udp_transport.c lines 254-276).  The
1024-byte tx array together with tx_pos is represented as the list of its
first tx_pos bytes; appends always occur at tx_pos.  Returns none on the
buffer-overflow error path. -/
def trp_append_tx (tx_buf : List Nat) (data : Nat) : Option (List Nat) :=
  let tx_buf := if tx_buf.length = 0 then [0, 0] else tx_buf
  if UDP_PACKET_SIZE ≤ tx_buf.length then none
  else some (tx_buf ++ [(data >>> 8) % 256, data % 256])

/-- Iterated trp_append_tx over a word sequence. -/
def trp_append_all (tx_buf : List Nat) : List Nat → Option (List Nat)
  | [] => some tx_buf
  | w :: ws =>
    match trp_append_tx tx_buf w with
    | none => none
    | some b => trp_append_all b ws

/-- Embedding of trp_send (udp_transport.c lines 282-317): the word count
(tx_pos >> 1) - 1 is computed on uint16_t, written big-endian over the
first two bytes, and the first tx_pos bytes are transmitted. -/
def trp_send (tx_buf : List Nat) : List Nat :=
  let data := (((tx_buf.length >>> 1) + 65535) % 65536)
  (((data >>> 8) % 256) :: (data % 256) :: tx_buf.drop 2).take tx_buf.length

/-- The rx_len that trp_receive (udp_transport.c lines 425-429, 465)
computes for a frame sitting in the ring buffer: twice the big-endian word
count in the frame's first two bytes, plus the two-byte size prefix and the
two-byte fake checksum suffix. -/
def trp_rx_len (frame : List Nat) : Nat :=
  2 * ((((frame.getD 0 0) <<< 8) ||| frame.getD 1 0) + 2)

/-- Embedding of trp_get_rx_data (udp_transport.c lines 367-385).  Takes
the rx buffer, rx_len and rx_pos; returns the decoded word and the new
rx_pos. -/
def trp_get_rx_data (rx_buf : List Nat) (rx_len rx_pos : Nat) : Nat × Nat :=
  if rx_len ≤ rx_pos then (0, rx_pos)
  else
    let pos := if rx_pos = 0 then 2 else rx_pos
    (((rx_buf.getD pos 0) <<< 8) ||| rx_buf.getD (pos + 1) 0, pos + 2)

/-- Calling trp_get_rx_data `count` times from position rx_pos, collecting
the returned words. -/
def trp_read_words (rx_buf : List Nat) (rx_len : Nat) :
    Nat → Nat → List Nat
  | 0, _ => []
  | count + 1, rx_pos =>
    let d := trp_get_rx_data rx_buf rx_len rx_pos
    d.1 :: trp_read_words rx_buf rx_len count d.2

/-- Big-endian encoding of one 16-bit word as two bytes, as trp_append_tx
stores them. -/
def enc16 (w : Nat) : List Nat := [(w >>> 8) % 256, w % 256]

/-- Big-endian byte stream of a word sequence, as successive trp_append_tx
calls produce it after the two reserved length bytes. -/
def encode_words : List Nat → List Nat
  | [] => []
  | w :: ws => enc16 w ++ encode_words ws

/-- The `struct breakpoint` of psim.c (lines 18-31). -/
structure breakpoint where
  available : Bool
  enable : Bool
  task : Nat
  ntask : Nat
  mpc : Nat
  on_task_switch : Bool
  mir_fmt : Nat
  mir_mask : Nat
deriving DecidableEq

/-- Placeholder entry for out-of-range list indexing (C indexes bps[num]
only for num below the table length). -/
def bp_default : breakpoint :=
  { available := true, enable := false, task := 0xFF, ntask := 0xFF
    mpc := 0xFFFF, on_task_switch := false, mir_fmt := 0, mir_mask := 0 }

/-- Embedding of the per-breakpoint match of psim_simulate (psim.c lines
286-310): hit1 starts TRUE and each non-wildcard mismatch clears it. -/
def bp_hit (bp : breakpoint) (ctask ntask mpc : Nat) (task_switch : Bool)
    (mir : Nat) : Bool :=
  let hit1 := true
  let hit1 := if bp.task ≠ 0xFF then (if bp.task ≠ ctask then false else hit1) else hit1
  let hit1 := if bp.ntask ≠ 0xFF then (if bp.ntask ≠ ntask then false else hit1) else hit1
  let hit1 := if bp.mpc ≠ 0xFFFF then (if bp.mpc ≠ mpc then false else hit1) else hit1
  let hit1 := if bp.on_task_switch then (if ¬task_switch then false else hit1) else hit1
  let hit1 := if bp.mir_mask ≠ 0 then
                (if (mir &&& bp.mir_mask) ≠ bp.mir_fmt then false else hit1)
              else hit1
  hit1

/-- Embedding of the effective breakpoint count of psim_simulate (psim.c
lines 258-264): one past the last slot that is taken (not available) and
enabled. -/
def effective_max (bps : List breakpoint) : Nat :=
  (List.range bps.length).foldl
    (fun acc num =>
      let bp := bps.getD num bp_default
      if ¬bp.available ∧ bp.enable then num + 1 else acc) 0

/-- Embedding of the breakpoint scan of psim_simulate (psim.c lines
282-319): slots are visited in increasing order, disabled slots are
skipped, and the scan stops at the first hit.  The first argument of the
recursion is the number of slots left to visit. -/
def scan_from (bps : List breakpoint) (ctask ntask mpc : Nat)
    (task_switch : Bool) (mir : Nat) : Nat → Nat → Option Nat
  | 0, _ => none
  | fuel + 1, num =>
    let bp := bps.getD num bp_default
    if bp.enable then
      if bp_hit bp ctask ntask mpc task_switch mir then some num
      else scan_from bps ctask ntask mpc task_switch mir fuel (num + 1)
    else scan_from bps ctask ntask mpc task_switch mir fuel (num + 1)

/-- The breakpoint the simulation loop stops at: the scan over slots
0 .. effective_max - 1. -/
def first_hit_breakpoint (bps : List breakpoint) (ctask ntask mpc : Nat)
    (task_switch : Bool) (mir : Nat) : Option Nat :=
  scan_from bps ctask ntask mpc task_switch mir (effective_max bps) 0

/-- Concrete all-zero simulator state used for witnesses and
counterexamples. -/
def base_sim : simulator :=
  { sys_type := system_type.ALTO_II_3KRAM
    error := false
    r := fun _ => 0, s := fun _ => 0, consts := fun _ => 0
    microcode := fun _ => 0, task_mpc := fun task => task
    mem := fun _ => 0, xm_banks := fun _ => 0, sr_banks := fun _ => 0
    t := 0, l := 0, m := 0, mar := 0, ir := 0, mir := 0, mpc := 0
    ctask := 0, ntask := 0, pending := 1
    aluC0 := false, skip := false, carry := false, dns := false
    task_switch := false
    rmr := 0xFFFF, mem_cycle := 0, mem_task := 0
    mem_low := 0xFFFF, mem_high := 0xFFFF, mem_extended := false
    mem_which := 0, cycle := 0, next_cycle := 0
    ether_address := 0, mouse_bits := 0 }

/-- Concrete microinstruction with all fields at their neutral values. -/
def base_mc : microcode :=
  { task := 0, rsel := 0, aluf := ALU_BUS, bs := BS_READ_R
    f1 := F1_NONE, f2 := F2_NONE
    load_t := false, load_l := false, load_t_from_alu := false
    use_constant := false, bs_use_crom := false, const_addr := 0
    ram_task := true }

/-- States reachable from simulator_reset by finite sequences of
simulator_step calls (with arbitrary predecoded microinstructions, since
the predecoder is not under src/). -/
inductive simulator_reachable : simulator → Prop where
  | reset : ∀ sim : simulator, simulator_reachable (simulator_reset sim)
  | step : ∀ (sim : simulator) (mc : microcode),
      simulator_reachable sim → simulator_reachable (simulator_step sim mc)

lemma testBit_of_lt_65536 {l i : Nat} (h : l < 65536) (hi : 16 ≤ i) :
    l.testBit i = false :=
  Nat.testBit_lt_two_pow
    (lt_of_lt_of_le h (Nat.pow_le_pow_right (show 0 < 2 by norm_num) hi))

lemma llcy8_twice (l : Nat) (h : l < 65536) :
    (((((l <<< 8) % 65536) ||| (l >>> 8)) <<< 8) % 65536) |||
      ((((l <<< 8) % 65536) ||| (l >>> 8)) >>> 8) = l := by
  have h16 : (65536 : Nat) = 2 ^ 16 := by norm_num
  apply Nat.eq_of_testBit_eq
  intro i
  rw [h16]
  simp only [Nat.testBit_lor, Nat.testBit_mod_two_pow, Nat.testBit_shiftLeft,
             Nat.testBit_shiftRight]
  rcases Nat.lt_or_ge i 8 with h8 | h8
  · have e1 : 8 + i - 8 = i := by omega
    have e2 : ¬(8 ≤ i) := by omega
    have e3 : 8 + i < 16 := by omega
    have e4 : (8 : Nat) ≤ 8 + i := by omega
    simp [e1, e2, e3, e4, testBit_of_lt_65536 h (show 16 ≤ 8 + (8 + i) by omega)]
  · rcases Nat.lt_or_ge i 16 with h16i | h16i
    · have e1 : ¬(8 ≤ i - 8) := by omega
      have e2 : 8 + (i - 8) = i := by omega
      have e3 : ¬(8 + i < 16) := by omega
      have e4 : i - 8 < 16 := by omega
      simp [h8, h16i, e1, e2, e3, e4,
            testBit_of_lt_65536 h (show 16 ≤ 8 + (8 + i) by omega)]
    · have e3 : ¬(8 + i < 16) := by omega
      have e5 : ¬(i < 16) := by omega
      simp [e3, e5, testBit_of_lt_65536 h (show 16 ≤ 8 + (8 + i) by omega),
            testBit_of_lt_65536 h h16i]

lemma testBit_xFFFE (i : Nat) :
    Nat.testBit 0xFFFE i = decide (1 ≤ i ∧ i < 16) := by
  rcases Nat.lt_or_ge i 16 with h | h
  · interval_cases i <;> decide
  · have : Nat.testBit 0xFFFE i = false :=
      Nat.testBit_lt_two_pow
        (lt_of_lt_of_le (show (0xFFFE : Nat) < 2 ^ 16 by norm_num)
          (Nat.pow_le_pow_right (show 0 < 2 by norm_num) h))
    simp [this, show ¬(i < 16) by omega]

lemma lrsh1_then_llsh1 (l : Nat) :
    ((l >>> 1) <<< 1) % 65536 = l &&& 0xFFFE := by
  have h16 : (65536 : Nat) = 2 ^ 16 := by norm_num
  apply Nat.eq_of_testBit_eq
  intro i
  rw [h16]
  simp only [Nat.testBit_land, Nat.testBit_mod_two_pow, Nat.testBit_shiftLeft,
             Nat.testBit_shiftRight, testBit_xFFFE]
  rcases eq_or_ne i 0 with rfl | h0
  · simp
  · rcases Nat.lt_or_ge i 16 with hlt | hge
    · have e1 : (1 : Nat) ≤ i := by omega
      have e2 : 1 + (i - 1) = i := by omega
      simp [hlt, e1, e2, Bool.and_comm]
    · simp [show ¬(i < 16) by omega, show ¬(1 ≤ i ∧ i < 16) by omega]

/-- C2 (amended): with dns clear and F2 not MAGIC, applying the shifter's
LLCY8 twice returns L unchanged, and applying LRSH1 followed by LLSH1
returns L &&& 0xFFFE (only bit 0 is lost; bit 15 survives the round
trip). -/
theorem C2_shifter_laws :
    (∀ (sim : simulator) (mc1 mc2 : microcode) (c1 c2 : Bool),
      sim.dns = false → sim.l < 65536 →
      mc1.f1 = F1_LLCY8 → mc2.f1 = F1_LLCY8 →
      mc1.f2 ≠ F2_EMU_MAGIC → mc2.f2 ≠ F2_EMU_MAGIC →
      (do_shift { sim with l := (do_shift sim mc1 c1).1 } mc2 c2).1 = sim.l)
    ∧
    (∀ (sim : simulator) (mc1 mc2 : microcode) (c1 c2 : Bool),
      sim.dns = false → sim.l < 65536 →
      mc1.f1 = F1_LRSH1 → mc2.f1 = F1_LLSH1 →
      mc1.f2 ≠ F2_EMU_MAGIC → mc2.f2 ≠ F2_EMU_MAGIC →
      (do_shift { sim with l := (do_shift sim mc1 c1).1 } mc2 c2).1 =
        sim.l &&& 0xFFFE) := by
  constructor
  · intro sim mc1 mc2 c1 c2 hdns hl h1 h2 hm1 hm2
    simp only [do_shift, h1, h2, hdns]
    norm_num [F1_LLCY8, F1_LLSH1, F1_LRSH1, F2_EMU_MAGIC]
    exact llcy8_twice sim.l hl
  · intro sim mc1 mc2 c1 c2 hdns hl h1 h2 hm1 hm2
    simp only [F2_EMU_MAGIC] at hm1 hm2
    simp only [do_shift, h1, h2, hdns]
    norm_num [F1_LLCY8, F1_LLSH1, F1_LRSH1, F2_EMU_MAGIC, hm1, hm2]
    exact lrsh1_then_llsh1 sim.l

/-- C2 counterexample: at L = 0x8000 (dns clear, F2 not MAGIC), LRSH1
followed by LLSH1 yields 0x8000, whereas the claim's formula
L &&& 0x7FFE yields 0. -/
theorem C2_counterexample :
    base_sim.dns = false ∧
    (do_shift
        { base_sim with
          l := (do_shift { base_sim with l := 0x8000 }
                  { base_mc with f1 := F1_LRSH1 } false).1 }
        { base_mc with f1 := F1_LLSH1 } false).1 = 0x8000 ∧
    (0x8000 : Nat) &&& 0x7FFE = 0 ∧ (0x8000 : Nat) ≠ 0 := by
  refine ⟨rfl, rfl, by decide, by decide⟩

/-- C2 witness: the amended law evaluated at L = 0x1234. -/
theorem C2_witness :
    (do_shift
        { { base_sim with l := 0x1234 } with
          l := (do_shift { base_sim with l := 0x1234 }
                  { base_mc with f1 := F1_LRSH1 } false).1 }
        { base_mc with f1 := F1_LLSH1 } false).1 =
      { base_sim with l := 0x1234 }.l &&& 0xFFFE :=
  C2_shifter_laws.2 { base_sim with l := 0x1234 }
    { base_mc with f1 := F1_LRSH1 } { base_mc with f1 := F1_LLSH1 }
    false false rfl (by norm_num) rfl rfl (by decide) (by decide)

/-- C3: with dns set, F2 not MAGIC and the incoming nova carry clear, the
LRSH1 shifter at L = 0 still produces 0x8000: bit 15 of the result is set
even though the carry flag was 0, because the source tests the pointer
`nova_carry` (always non-NULL) instead of the value it points to.  The new
nova carry does equal the displaced bit L &&& 1 = 0. -/
theorem C3_lrsh1_carry_injection :
    (do_shift { base_sim with dns := true }
        { base_mc with f1 := F1_LRSH1 } false) = (32768, false) ∧
    Nat.testBit 32768 15 = true := by
  exact ⟨rfl, by decide⟩

lemma land_shift_ne_zero (pending n : Nat) :
    (pending &&& (1 <<< n) ≠ 0) ↔ pending.testBit n = true := by
  rw [Nat.shiftLeft_eq, one_mul, Nat.and_two_pow]
  cases h : pending.testBit n
  · simp [h]
  · simp [h, (Nat.two_pow_pos n).ne']

lemma find_pending_task_eq_high (pending : Nat) :
    ∀ n A, A < n → pending.testBit A = true →
    (∀ C, C < n → A < C → pending.testBit C = false) →
    find_pending_task pending n = some A := by
  intro n
  induction n with
  | zero => intro A h _ _; omega
  | succ n ih =>
    intro A hA hbit hhigh
    by_cases hn : A = n
    · subst hn
      simp [find_pending_task, (land_shift_ne_zero pending A).mpr hbit]
    · have hAn : A < n := by omega
      have hbn : pending.testBit n = false := hhigh n (by omega) (by omega)
      have hcond : ¬(pending &&& (1 <<< n) ≠ 0) := by
        simp [land_shift_ne_zero, hbn]
      simp only [find_pending_task, if_neg hcond]
      exact ih A hAn hbit (fun C h1 h2 => hhigh C (by omega) h2)

/-- C5 (amended): after F1=TASK, ntask is the highest-numbered pending
task; in particular, if tasks A and B are both pending with A > B and no
task numbered above A is pending, then ntask = A. -/
theorem C5_task_priority :
    (∀ (sim : simulator) (mc : microcode) (bus alu sh A B : Nat),
      mc.f1 = F1_TASK → A < 16 → B < A →
      sim.pending.testBit A = true → sim.pending.testBit B = true →
      (∀ C, C < 16 → A < C → sim.pending.testBit C = false) →
      (do_f1 sim mc bus alu sh).ntask = A)
    ∧
    (∀ (sim : simulator) (mc : microcode) (bus alu sh A : Nat),
      mc.f1 = F1_TASK → A < 16 →
      sim.pending.testBit A = true →
      (∀ C, C < 16 → A < C → sim.pending.testBit C = false) →
      (do_f1 sim mc bus alu sh).ntask = A) := by
  have key : ∀ (sim : simulator) (mc : microcode) (bus alu sh A : Nat),
      mc.f1 = F1_TASK → A < 16 →
      sim.pending.testBit A = true →
      (∀ C, C < 16 → A < C → sim.pending.testBit C = false) →
      (do_f1 sim mc bus alu sh).ntask = A := by
    intro sim mc bus alu sh A hf1 hA hbit hhigh
    have hfind : find_pending_task sim.pending TASK_NUM_TASKS = some A :=
      find_pending_task_eq_high sim.pending TASK_NUM_TASKS A hA hbit
        (fun C h1 h2 => hhigh C h1 h2)
    simp only [do_f1, hf1]
    norm_num [F1_TASK, F1_CONSTANT, F1_LLSH1, F1_LRSH1, F1_LLCY8, F1_LOAD_MAR]
    rw [hfind]
  exact ⟨fun sim mc bus alu sh A B hf1 hA hB hbA hbB hh =>
          key sim mc bus alu sh A hf1 hA hbA hh,
         key⟩

/-- C5 counterexample: with pending = 1064 (tasks 3, 5 and 10 pending),
A = 5 and B = 3 are both pending with A > B, yet F1=TASK selects
ntask = 10, not A. -/
theorem C5_counterexample :
    Nat.testBit 1064 5 = true ∧ Nat.testBit 1064 3 = true ∧ 3 < 5 ∧
    (do_f1 { base_sim with pending := 1064 }
        { base_mc with f1 := F1_TASK } 0 0 0).ntask = 10 ∧
    (10 : Nat) ≠ 5 :=
  ⟨by decide, by decide, by decide, rfl, by decide⟩

/-- C5 witness: with pending = 40 (tasks 3 and 5), F1=TASK selects
ntask = 5. -/
theorem C5_witness :
    (do_f1 { base_sim with pending := 40 }
        { base_mc with f1 := F1_TASK } 0 0 0).ntask = 5 :=
  C5_task_priority.1 { base_sim with pending := 40 }
    { base_mc with f1 := F1_TASK } 0 0 0 5 3 rfl (by decide) (by decide)
    (by decide) (by decide) (by decide)

/-- C4: after the F1 phase of F1=LOAD_MAR, MAR holds the ALU output,
mem_which is 0, mem_task is the current task, mem_extended is set iff
F2=STORE_MD on a non-Alto-I system, mem_low is the memory word the
simulator reads at MAR, and mem_high is the word at the paired address:
MAR | 1 on Alto I and MAR ^ 1 otherwise. -/
theorem C4_load_mar (sim : simulator) (mc : microcode)
    (bus alu sh : Nat) (hf1 : mc.f1 = F1_LOAD_MAR) :
    (do_f1 sim mc bus alu sh).mar = alu ∧
    (do_f1 sim mc bus alu sh).mem_which = 0 ∧
    (do_f1 sim mc bus alu sh).mem_task = mc.task ∧
    ((do_f1 sim mc bus alu sh).mem_extended = true ↔
      (mc.f2 = F2_STORE_MD ∧ sim.sys_type ≠ system_type.ALTO_I)) ∧
    (do_f1 sim mc bus alu sh).mem_low =
      simulator_read sim alu mc.task (do_f1 sim mc bus alu sh).mem_extended ∧
    (do_f1 sim mc bus alu sh).mem_high =
      simulator_read sim
        (if sim.sys_type = system_type.ALTO_I then 1 ||| alu else 1 ^^^ alu)
        mc.task (do_f1 sim mc bus alu sh).mem_extended := by
  simp only [do_f1, hf1]
  norm_num [F1_LOAD_MAR, F1_CONSTANT, F1_LLSH1, F1_LRSH1, F1_LLCY8, F1_TASK]
  constructor
  · by_cases hsys : sim.sys_type = system_type.ALTO_I <;> simp [hsys]
  · constructor
    · simp [simulator_read]
    · simp [simulator_read]

/-- C4 witness: the LOAD_MAR contract evaluated at the all-zero state with
ALU output 256. -/
theorem C4_witness :
    (do_f1 base_sim { base_mc with f1 := F1_LOAD_MAR } 0 256 0).mar = 256 :=
  (C4_load_mar base_sim { base_mc with f1 := F1_LOAD_MAR } 0 256 0 rfl).1

/-- C7: a step taken in the error state is a no-op on the state, and
simulator_reset clears the error flag. -/
theorem C7_sticky_error :
    (∀ (sim : simulator) (mc : microcode), sim.error = true →
      simulator_step sim mc = sim) ∧
    (∀ sim : simulator, (simulator_reset sim).error = false) := by
  constructor
  · intro sim mc herr
    simp [simulator_step, herr]
  · intro sim
    rfl

/-- C7 witness: a concrete error state is left unchanged, and reset clears
the flag. -/
theorem C7_witness :
    simulator_step { base_sim with error := true } base_mc =
      { base_sim with error := true } ∧
    (simulator_reset base_sim).error = false :=
  ⟨C7_sticky_error.1 { base_sim with error := true } base_mc rfl,
   C7_sticky_error.2 base_sim⟩

/-- C10: both simulator_read and simulator_write classify the seventeen
addresses 0xFFE0 .. 0xFFF0 as bank-register accesses (the range test uses
a less-or-equal bound), address 0xFFF0 maps to xm_banks slot 16, one past
the NUM_BANK_SLOTS = 16 entries of the C array, while each address in
0xFFE0 .. 0xFFEF is in bounds and reads 0xFFF0 OR-ed with its bank
register. -/
theorem C10_bank_register_range :
    (∀ a : Nat, is_xm_bank_address a = true ↔
      (XM_BANK_START ≤ a ∧ a ≤ XM_BANK_START + NUM_BANK_SLOTS)) ∧
    is_xm_bank_address 0xFFF0 = true ∧
    xm_bank_slot 0xFFF0 = NUM_BANK_SLOTS ∧
    ¬(xm_bank_slot 0xFFF0 < NUM_BANK_SLOTS) ∧
    (∀ (sim : simulator) (task : Nat) (ext : Bool) (a : Nat),
      0xFFE0 ≤ a → a ≤ 0xFFEF →
      xm_bank_slot a < NUM_BANK_SLOTS ∧
      simulator_read sim a task ext =
        0xFFF0 ||| sim.xm_banks (a - 0xFFE0)) ∧
    (∀ (sim : simulator) (d task : Nat) (ext : Bool),
      (simulator_write sim 0xFFF0 d task ext).xm_banks =
        Function.update sim.xm_banks NUM_BANK_SLOTS d ∧
      (simulator_write sim 0xFFF0 d task ext).mem = sim.mem) := by
  refine ⟨?_, by decide, by decide, by decide, ?_, ?_⟩
  · intro a
    simp [is_xm_bank_address]
  · intro sim task ext a h1 h2
    have hb : is_xm_bank_address a = true := by
      simp only [is_xm_bank_address, XM_BANK_START, NUM_BANK_SLOTS]
      simp only [Bool.and_eq_true, decide_eq_true_eq]
      omega
    refine ⟨?_, ?_⟩
    · simp only [xm_bank_slot, XM_BANK_START, NUM_BANK_SLOTS]; omega
    · simp [simulator_read, hb, xm_bank_slot, XM_BANK_START]
  · intro sim d task ext
    constructor
    · simp [simulator_write, show is_xm_bank_address 0xFFF0 = true from by decide,
            show xm_bank_slot 0xFFF0 = NUM_BANK_SLOTS from by decide]
    · simp [simulator_write, show is_xm_bank_address 0xFFF0 = true from by decide]

/-- C10 witness: the in-range read contract evaluated at address 0xFFE5. -/
theorem C10_witness :
    simulator_read base_sim 0xFFE5 0 false =
      0xFFF0 ||| base_sim.xm_banks (0xFFE5 - 0xFFE0) :=
  ((C10_bank_register_range.2.2.2.2.1) base_sim 0 false 0xFFE5
    (by decide) (by decide)).2

lemma hit_step (c d : Prop) [Decidable c] [Decidable d] (x : Bool) :
    ((if c then (if d then false else x) else x) = true) ↔ (¬(c ∧ d) ∧ x = true) := by
  by_cases hc : c <;> by_cases hd : d <;> simp [hc, hd]

lemma scan_from_first (bps : List breakpoint) (ct nt mp : Nat) (ts : Bool)
    (mir : Nat) :
    ∀ fuel num i, scan_from bps ct nt mp ts mir fuel num = some i →
      num ≤ i ∧
      ((bps.getD i bp_default).enable = true ∧
        bp_hit (bps.getD i bp_default) ct nt mp ts mir = true) ∧
      ∀ j, num ≤ j → j < i →
        ¬((bps.getD j bp_default).enable = true ∧
          bp_hit (bps.getD j bp_default) ct nt mp ts mir = true) := by
  intro fuel
  induction fuel with
  | zero =>
    intro num i h
    simp [scan_from] at h
  | succ fuel ih =>
    intro num i h
    simp only [scan_from] at h
    by_cases he : (bps.getD num bp_default).enable = true
    · rw [if_pos he] at h
      by_cases hh : bp_hit (bps.getD num bp_default) ct nt mp ts mir = true
      · rw [if_pos hh] at h
        obtain rfl : num = i := Option.some.inj h
        exact ⟨Nat.le_refl _, ⟨he, hh⟩, fun j h1 h2 => absurd (by omega : num ≤ num ∧ num < num) (by omega)⟩
      · rw [if_neg hh] at h
        obtain ⟨hle, hcond, hmin⟩ := ih (num + 1) i h
        refine ⟨by omega, hcond, ?_⟩
        intro j h1 h2 hj
        rcases eq_or_ne j num with rfl | hne
        · exact hh hj.2
        · exact hmin j (by omega) h2 hj
    · rw [if_neg he] at h
      obtain ⟨hle, hcond, hmin⟩ := ih (num + 1) i h
      refine ⟨by omega, hcond, ?_⟩
      intro j h1 h2 hj
      rcases eq_or_ne j num with rfl | hne
      · exact he hj.1
      · exact hmin j (by omega) h2 hj

/-- C9: an enabled breakpoint hits iff every non-wildcard field matches
(task 0xFF, ntask 0xFF and mpc 0xFFFF are wildcards, on_task_switch only
constrains when set, mir_mask 0 disables the MIR filter, which otherwise
requires (mir AND mir_mask) = mir_fmt); and the post-step scan stops at
the lowest-numbered enabled breakpoint that hits. -/
theorem C9_breakpoint_engine :
    (∀ (bp : breakpoint) (ctask ntask mpc : Nat) (ts : Bool) (mir : Nat),
      bp.enable = true →
      (bp_hit bp ctask ntask mpc ts mir = true ↔
        ((bp.task = 0xFF ∨ bp.task = ctask) ∧
         (bp.ntask = 0xFF ∨ bp.ntask = ntask) ∧
         (bp.mpc = 0xFFFF ∨ bp.mpc = mpc) ∧
         (bp.on_task_switch = false ∨ ts = true) ∧
         (bp.mir_mask = 0 ∨ mir &&& bp.mir_mask = bp.mir_fmt))))
    ∧
    (∀ (bps : List breakpoint) (ctask ntask mpc : Nat) (ts : Bool)
       (mir : Nat) (i : Nat),
      first_hit_breakpoint bps ctask ntask mpc ts mir = some i →
      ((bps.getD i bp_default).enable = true ∧
       bp_hit (bps.getD i bp_default) ctask ntask mpc ts mir = true ∧
       ∀ j, j < i →
         ¬((bps.getD j bp_default).enable = true ∧
           bp_hit (bps.getD j bp_default) ctask ntask mpc ts mir = true))) := by
  constructor
  · intro bp ctask ntask mpc ts mir _
    simp only [bp_hit]
    rw [hit_step, hit_step, hit_step, hit_step, hit_step]
    simp only [eq_self_iff_true, and_true]
    constructor
    · rintro ⟨h5, h4, h3, h2, h1⟩
      refine ⟨by tauto, by tauto, by tauto, ?_, by tauto⟩
      rcases Bool.eq_false_or_eq_true bp.on_task_switch with hb | hb
      · rcases Bool.eq_false_or_eq_true ts with htx | htx
        · exact Or.inr htx
        · exact absurd ⟨hb, by simp [htx]⟩ h4
      · exact Or.inl hb

    · rintro ⟨h1, h2, h3, h4, h5⟩
      refine ⟨by tauto, ?_, by tauto, by tauto, by tauto⟩
      rintro ⟨hb, hts⟩
      rcases h4 with hf | htt
      · rw [hf] at hb; exact absurd hb (by simp)
      · exact hts htt
  · intro bps ctask ntask mpc ts mir i h
    obtain ⟨_, ⟨hen, hhit⟩, hmin⟩ :=
      scan_from_first bps ctask ntask mpc ts mir (effective_max bps) 0 i h
    exact ⟨hen, hhit, fun j hj => hmin j (Nat.zero_le j) hj⟩

/-- C9 witness: a breakpoint on mpc = 5 with all other fields wildcarded
hits in a state with mpc = 5, by the match contract. -/
theorem C9_witness :
    bp_hit { bp_default with enable := true, mpc := 5 } 3 4 5 false 7 = true :=
  (C9_breakpoint_engine.1 { bp_default with enable := true, mpc := 5 }
      3 4 5 false 7 rfl).mpr
    (by refine ⟨Or.inl rfl, Or.inl rfl, Or.inr rfl, Or.inl rfl, Or.inl rfl⟩)

lemma set_error_true_of_error {s : simulator} (h : s.error = true) :
    ({ s with error := true } : simulator) = s := by
  cases s
  simp_all

lemma set_error_self (s : simulator) :
    ({ s with error := s.error } : simulator) = s := rfl

lemma read_bus_snd_eq (sim : simulator) (mc : microcode) (rs : Nat) :
    (read_bus sim mc rs).2 =
      { sim with
        mem_which := if ¬mc.use_constant ∧ mc.bs = BS_READ_MD
                     then 1 ^^^ sim.mem_which else sim.mem_which
        error := (read_bus sim mc rs).2.error } := by
  by_cases huc : mc.use_constant = true
  · have hsnd : (read_bus sim mc rs).2 = sim := by
      simp only [read_bus]
      rw [if_pos huc]
    rw [hsnd, if_neg (by simp [huc])]
  · by_cases hmd : mc.bs = BS_READ_MD
    · have hR : ¬(mc.bs = BS_READ_R) := by rw [hmd]; decide
      have hL : ¬(mc.bs = BS_LOAD_R) := by rw [hmd]; decide
      have hN : ¬(mc.bs = BS_NONE) := by rw [hmd]; decide
      have hsnd : (read_bus sim mc rs).2 =
          { sim with mem_which := 1 ^^^ sim.mem_which } := by
        simp only [read_bus]
        rw [if_neg huc, if_neg hR, if_neg hL, if_neg hN, if_pos hmd]
      rw [hsnd, if_pos ⟨huc, hmd⟩]
    · rw [if_neg (by tauto : ¬(¬mc.use_constant = true ∧ mc.bs = BS_READ_MD))]
      simp only [read_bus]
      rw [if_neg huc]
      by_cases hR : mc.bs = BS_READ_R
      · rw [if_pos hR]
      · rw [if_neg hR]
        by_cases hL : mc.bs = BS_LOAD_R
        · rw [if_pos hL]
        · rw [if_neg hL]
          by_cases hN : mc.bs = BS_NONE
          · rw [if_pos hN]
            by_cases hrsnf : mc.task = TASK_EMULATOR ∧ mc.f1 = F1_EMU_RSNF
            · rw [if_pos hrsnf]
            · rw [if_neg hrsnf]
          · rw [if_neg hN, if_neg hmd]
            by_cases hMo : mc.bs = BS_READ_MOUSE
            · rw [if_pos hMo]
            · rw [if_neg hMo]
              by_cases hD : mc.bs = BS_READ_DISP
              · rw [if_pos hD]
              · rw [if_neg hD]
                by_cases hram : mc.ram_task = true
                · rw [if_pos hram]
                  by_cases hrs2 : mc.bs = BS_RAM_READ_S_LOCATION
                  · rw [if_pos hrs2]
                    by_cases hr0 : mc.rsel = 0
                    · rw [if_pos hr0]
                    · rw [if_neg hr0]
                  · rw [if_neg hrs2]
                    by_cases hls : mc.bs = BS_RAM_LOAD_S_LOCATION
                    · rw [if_pos hls]
                    · rw [if_neg hls]
                · rw [if_neg hram]
                  by_cases heth : mc.task = TASK_ETHERNET ∧ mc.bs = BS_ETH_EIDFCT
                  · rw [if_pos heth]
                  · rw [if_neg heth]
                    by_cases hdisk : (mc.task = TASK_DISK_SECTOR ∨ mc.task = TASK_DISK_WORD)
                        ∧ (mc.bs = BS_DSK_READ_KSTAT ∨ mc.bs = BS_DSK_READ_KDATA)
                    · rw [if_pos hdisk]
                    · rw [if_neg hdisk]

lemma compute_alu_snd_eq (sim : simulator) (mc : microcode) (bus : Nat) :
    (compute_alu sim mc bus).2.2 =
      { sim with error := (compute_alu sim mc bus).2.2.error } := by
  simp only [compute_alu]
  by_cases hv : alu_valid mc.aluf = true
  · rw [if_pos hv]
  · rw [if_neg hv]

lemma mask_testBit0 (t : Nat) (ht : t ≠ 0) :
    (0xFFFF ^^^ ((1 <<< t) % 65536)).testBit 0 = true := by
  have h16 : (65536 : Nat) = 2 ^ 16 := by norm_num
  have hx : ((1 <<< t) % 65536).testBit 0 = false := by
    rw [h16, Nat.testBit_mod_two_pow]
    simp [Nat.testBit_shiftLeft, Nat.le_zero, ht]
  rw [Nat.testBit_xor, hx, Bool.xor_false]
  decide

lemma do_f1_pending_testBit0 (sim : simulator) (mc : microcode)
    (bus alu sh : Nat) :
    ((do_f1 sim mc bus alu sh).pending).testBit 0 = sim.pending.testBit 0 := by
  simp only [do_f1]
  by_cases h1 : mc.f1 = F1_CONSTANT ∨ mc.f1 = F1_LLSH1 ∨ mc.f1 = F1_LRSH1 ∨ mc.f1 = F1_LLCY8
  · rw [if_pos h1]
  · rw [if_neg h1]
    by_cases h2 : mc.f1 = F1_LOAD_MAR
    · rw [if_pos h2]
    · rw [if_neg h2]
      by_cases h3 : mc.f1 = F1_TASK
      · rw [if_pos h3]
        cases hfp : find_pending_task sim.pending TASK_NUM_TASKS
        · rfl
        · rfl
      · rw [if_neg h3]
        by_cases h4 : mc.f1 = F1_BLOCK
        · rw [if_pos h4]
          by_cases h5 : mc.task = TASK_EMULATOR
          · rw [if_pos h5]
          · rw [if_neg h5]
            have ht : mc.task ≠ 0 := by simpa [TASK_EMULATOR] using h5
            rw [Nat.testBit_land, mask_testBit0 mc.task ht, Bool.and_true]
        · rw [if_neg h4]
          by_cases h6 : mc.ram_task = true ∧ mc.f1 = F1_RAM_SWMODE ∧ mc.task ≠ TASK_EMULATOR
          · rw [if_pos h6]
          · rw [if_neg h6]
            by_cases h7 : mc.ram_task = true ∧ mc.f1 = F1_RAM_LOAD_SRB ∧ mc.task ≠ TASK_EMULATOR
            · rw [if_pos h7]
              rw [if_neg h7.2.2]
            · rw [if_neg h7]
              by_cases h8 : mc.task = TASK_EMULATOR
              · rw [if_pos h8]
                by_cases h9 : mc.f1 = F1_EMU_LOAD_RMR
                · rw [if_pos h9]
                · rw [if_neg h9]
                  by_cases h10 : mc.f1 = F1_EMU_LOAD_ESRB
                  · rw [if_pos h10]
                  · rw [if_neg h10]
                    by_cases h11 : mc.f1 = F1_EMU_SWMODE ∨ mc.f1 = F1_EMU_RSNF ∨ mc.f1 = F1_EMU_STARTF
                    · rw [if_pos h11]
                    · rw [if_neg h11]
                      by_cases h12 : F1_SPECIFIC_THRESH ≤ mc.f1
                      · rw [if_pos h12]
                      · rw [if_neg h12]
              · rw [if_neg h8]

lemma simulator_write_pending (sim : simulator) (a d t : Nat) (e : Bool) :
    (simulator_write sim a d t e).pending = sim.pending := by
  simp only [simulator_write]
  by_cases h : is_xm_bank_address a = true
  · rw [if_pos h]
  · rw [if_neg h]

lemma do_f2_snd_pending (sim : simulator) (mc : microcode)
    (bus alu sh : Nat) :
    ((do_f2 sim mc bus alu sh).2).pending = sim.pending := by
  simp only [do_f2]
  by_cases h1 : mc.f2 = F2_NONE ∨ mc.f2 = F2_CONSTANT
  · rw [if_pos h1]
  · rw [if_neg h1]
    by_cases h2 : mc.f2 = F2_BUSEQ0
    · rw [if_pos h2]
    · rw [if_neg h2]
      by_cases h3 : mc.f2 = F2_SHLT0
      · rw [if_pos h3]
      · rw [if_neg h3]
        by_cases h4 : mc.f2 = F2_SHEQ0
        · rw [if_pos h4]
        · rw [if_neg h4]
          by_cases h5 : mc.f2 = F2_BUS
          · rw [if_pos h5]
          · rw [if_neg h5]
            by_cases h6 : mc.f2 = F2_ALUCY
            · rw [if_pos h6]
            · rw [if_neg h6]
              by_cases h7 : mc.f2 = F2_STORE_MD
              · rw [if_pos h7]
                by_cases h8 : mc.f1 ≠ F1_LOAD_MAR ∨ sim.sys_type = system_type.ALTO_I
                · rw [if_pos h8]
                  show (simulator_write sim _ bus sim.mem_task sim.mem_extended).pending = sim.pending
                  rw [simulator_write_pending]
                · rw [if_neg h8]
              · rw [if_neg h7]
                by_cases h9 : mc.task = TASK_EMULATOR
                · rw [if_pos h9]
                  by_cases h10 : mc.f2 = F2_EMU_BUSODD
                  · rw [if_pos h10]
                  · rw [if_neg h10]
                    by_cases h11 : mc.f2 = F2_EMU_LOAD_IR
                    · rw [if_pos h11]
                    · rw [if_neg h11]
                · rw [if_neg h9]

lemma wb_registers_pending (sim : simulator) (mc : microcode)
    (rs bus alu sh : Nat) (c : Bool) :
    (wb_registers sim mc rs bus alu sh c).pending = sim.pending := by
  simp only [wb_registers]
  split_ifs <;> rfl

lemma update_program_counters_pending (sim : simulator) (ne : Nat) :
    (update_program_counters sim ne).pending = sim.pending := by
  simp only [update_program_counters]
  split_ifs <;> rfl

lemma step_pending_testBit0 (sim : simulator) (mc : microcode) :
    ((simulator_step sim mc).pending).testBit 0 = sim.pending.testBit 0 := by
  by_cases herr : sim.error = true
  · simp [simulator_step, herr]
  · simp only [simulator_step]
    rw [if_neg herr]
    set mcx := { mc with task := sim.ctask } with hmcx
    set rs := get_modified_rsel sim mcx with hrs
    set br := read_bus sim mcx rs with hbr
    have hp1 : br.2.pending = sim.pending := by
      rw [hbr, read_bus_snd_eq]
    by_cases h1 : br.2.error = true
    · rw [if_pos h1, hp1]
    · rw [if_neg h1]
      set ar := compute_alu br.2 mcx br.1 with har
      have hp2 : ar.2.2.pending = br.2.pending := by
        rw [har, compute_alu_snd_eq]
      by_cases h2 : ar.2.2.error = true
      · rw [if_pos h2, hp2, hp1]
      · rw [if_neg h2]
        set sh := do_shift ar.2.2 mcx ar.2.2.carry with hsh
        set s3 := do_f1 ar.2.2 mcx br.1 ar.1 sh.1 with hs3
        have hp3 : s3.pending.testBit 0 = ar.2.2.pending.testBit 0 := by
          rw [hs3]
          exact do_f1_pending_testBit0 ar.2.2 mcx br.1 ar.1 sh.1
        by_cases h3 : s3.error = true
        · rw [if_pos h3, hp3, hp2, hp1]
        · rw [if_neg h3]
          set fr := do_f2 s3 mcx br.1 ar.1 sh.1 with hfr
          have hp4 : fr.2.pending = s3.pending := by
            rw [hfr]
            exact do_f2_snd_pending s3 mcx br.1 ar.1 sh.1
          by_cases h4 : fr.2.error = true
          · rw [if_pos h4, hp4, hp3, hp2, hp1]
          · rw [if_neg h4]
            rw [update_program_counters_pending, wb_registers_pending,
                hp4, hp3, hp2, hp1]

/-- C6: in every state reachable from simulator_reset by simulator_step
calls, the emulator task's pending bit is set. -/
theorem C6_emulator_always_pending :
    ∀ sim : simulator, simulator_reachable sim →
      sim.pending &&& (1 <<< TASK_EMULATOR) ≠ 0 := by
  have bit : ∀ sim : simulator, simulator_reachable sim →
      sim.pending.testBit 0 = true := by
    intro sim h
    induction h with
    | reset sim =>
      exact (by decide : Nat.testBit (1 <<< TASK_EMULATOR) 0 = true)
    | step sim mc _ ih => rw [step_pending_testBit0]; exact ih
  intro sim h
  rw [show TASK_EMULATOR = 0 from rfl, land_shift_ne_zero]
  exact bit sim h

/-- C6 witness: the invariant evaluated at the reset state. -/
theorem C6_witness :
    (simulator_reset base_sim).pending &&& (1 <<< TASK_EMULATOR) ≠ 0 :=
  C6_emulator_always_pending (simulator_reset base_sim)
    (simulator_reachable.reset base_sim)

lemma step_block_emulator (sim : simulator) (mcIn : microcode)
    (herr : sim.error = false) (hct : sim.ctask = TASK_EMULATOR)
    (hf1 : mcIn.f1 = F1_BLOCK) :
    simulator_step sim mcIn =
      { (read_bus sim { mcIn with task := sim.ctask }
            (get_modified_rsel sim { mcIn with task := sim.ctask })).2 with
        error := true } := by
  have herr2 : ¬(sim.error = true) := by simp [herr]
  simp only [simulator_step]
  rw [if_neg herr2]
  set mcx := { mcIn with task := sim.ctask } with hmcx
  set rs := get_modified_rsel sim mcx with hrs
  set br := read_bus sim mcx rs with hbr
  by_cases h1 : br.2.error = true
  · rw [if_pos h1]
    exact (set_error_true_of_error h1).symm
  · rw [if_neg h1]
    set ar := compute_alu br.2 mcx br.1 with har
    have har2 : ar.2.2 = { br.2 with error := ar.2.2.error } := by
      rw [har, compute_alu_snd_eq]
    by_cases h2 : ar.2.2.error = true
    · rw [if_pos h2]
      rw [har2, h2]
    · rw [if_neg h2]
      have hbe : br.2.error = false := by
        revert h1; cases br.2.error <;> simp
      have hae : ar.2.2.error = false := by
        revert h2; cases ar.2.2.error <;> simp
      have har3 : ar.2.2 = br.2 := by
        rw [har2, hae, ← hbe]
      rw [har3]
      have hmf1 : mcx.f1 = F1_BLOCK := hf1
      have hmt : mcx.task = TASK_EMULATOR := hct
      have hne1 : ¬(mcx.f1 = F1_CONSTANT ∨ mcx.f1 = F1_LLSH1 ∨
          mcx.f1 = F1_LRSH1 ∨ mcx.f1 = F1_LLCY8) := by rw [hmf1]; decide
      have hne2 : ¬(mcx.f1 = F1_LOAD_MAR) := by rw [hmf1]; decide
      have hne3 : ¬(mcx.f1 = F1_TASK) := by rw [hmf1]; decide
      have hblock : do_f1 br.2 mcx br.1 ar.1 (do_shift br.2 mcx br.2.carry).1 =
          { br.2 with error := true } := by
        simp only [do_f1]
        rw [if_neg hne1, if_neg hne2, if_neg hne3, if_pos hmf1, if_pos hmt]
      rw [hblock]
      rw [if_pos (show ({ br.2 with error := true } : simulator).error = true from rfl)]

/-- C1 (amended): stepping a non-error state whose microinstruction has
F1=BLOCK while the current task is the emulator sets the sticky error and
leaves every listed component unchanged except mem_which, which is
toggled exactly when the bus source is READ_MD (and the constant ROM is
not selected), because read_bus runs before the BLOCK error is raised. -/
theorem C1_block_in_emulator (sim : simulator) (mcIn : microcode)
    (herr : sim.error = false) (hct : sim.ctask = TASK_EMULATOR)
    (hf1 : mcIn.f1 = F1_BLOCK) :
    (simulator_step sim mcIn).error = true ∧
    (simulator_step sim mcIn).r = sim.r ∧
    (simulator_step sim mcIn).s = sim.s ∧
    (simulator_step sim mcIn).t = sim.t ∧
    (simulator_step sim mcIn).l = sim.l ∧
    (simulator_step sim mcIn).m = sim.m ∧
    (simulator_step sim mcIn).mar = sim.mar ∧
    (simulator_step sim mcIn).ir = sim.ir ∧
    (simulator_step sim mcIn).mem = sim.mem ∧
    (simulator_step sim mcIn).task_mpc = sim.task_mpc ∧
    (simulator_step sim mcIn).pending = sim.pending ∧
    (simulator_step sim mcIn).mpc = sim.mpc ∧
    (simulator_step sim mcIn).mir = sim.mir ∧
    (simulator_step sim mcIn).ctask = sim.ctask ∧
    (simulator_step sim mcIn).ntask = sim.ntask ∧
    (simulator_step sim mcIn).mem_cycle = sim.mem_cycle ∧
    (simulator_step sim mcIn).mem_task = sim.mem_task ∧
    (simulator_step sim mcIn).mem_low = sim.mem_low ∧
    (simulator_step sim mcIn).mem_high = sim.mem_high ∧
    (simulator_step sim mcIn).mem_extended = sim.mem_extended ∧
    (simulator_step sim mcIn).cycle = sim.cycle ∧
    (simulator_step sim mcIn).xm_banks = sim.xm_banks ∧
    (simulator_step sim mcIn).sr_banks = sim.sr_banks ∧
    (simulator_step sim mcIn).mem_which =
      (if ¬mcIn.use_constant ∧ mcIn.bs = BS_READ_MD
       then 1 ^^^ sim.mem_which else sim.mem_which) := by
  rw [step_block_emulator sim mcIn herr hct hf1, read_bus_snd_eq]
  exact ⟨rfl, rfl, rfl, rfl, rfl, rfl, rfl, rfl, rfl, rfl, rfl, rfl, rfl,
         rfl, rfl, rfl, rfl, rfl, rfl, rfl, rfl, rfl, rfl, rfl⟩

/-- C1 counterexample: with bus source READ_MD, executing F1=BLOCK in the
emulator task sets the error flag but also toggles mem_which from 0 to 1,
so the state does not stay otherwise unchanged. -/
theorem C1_counterexample :
    base_sim.error = false ∧ base_sim.ctask = TASK_EMULATOR ∧
    ({ base_mc with f1 := F1_BLOCK, bs := BS_READ_MD } : microcode).f1 = F1_BLOCK ∧
    base_sim.mem_which = 0 ∧
    (simulator_step base_sim
        { base_mc with f1 := F1_BLOCK, bs := BS_READ_MD }).mem_which = 1 ∧
    (simulator_step base_sim
        { base_mc with f1 := F1_BLOCK, bs := BS_READ_MD }).error = true :=
  ⟨rfl, rfl, rfl, rfl, rfl, rfl⟩

/-- C1 witness: the amended statement evaluated at the all-zero state with
bus source READ_R. -/
theorem C1_witness :
    (simulator_step base_sim { base_mc with f1 := F1_BLOCK }).error = true ∧
    (simulator_step base_sim { base_mc with f1 := F1_BLOCK }).pending =
      base_sim.pending :=
  ⟨(C1_block_in_emulator base_sim { base_mc with f1 := F1_BLOCK }
      rfl rfl rfl).1,
   (C1_block_in_emulator base_sim { base_mc with f1 := F1_BLOCK }
      rfl rfl rfl).2.2.2.2.2.2.2.2.2.2.1⟩

lemma or_decode (w : Nat) : ((w >>> 8) <<< 8) ||| (w % 256) = w := by
  have h256 : (256 : Nat) = 2 ^ 8 := by norm_num
  apply Nat.eq_of_testBit_eq
  intro i
  rw [h256]
  simp only [Nat.testBit_lor, Nat.testBit_shiftLeft, Nat.testBit_shiftRight,
             Nat.testBit_mod_two_pow]
  rcases Nat.lt_or_ge i 8 with h | h
  · simp [show ¬(8 ≤ i) by omega, h]
  · have e : 8 + (i - 8) = i := by omega
    simp [h, e, show ¬(i < 8) by omega]

lemma hi_byte_eq (w : Nat) (h : w < 65536) : (w >>> 8) % 256 = w >>> 8 := by
  apply Nat.mod_eq_of_lt
  rw [Nat.shiftRight_eq_div_pow]
  exact Nat.div_lt_iff_lt_mul (by norm_num) |>.mpr (by norm_num at *; omega)

lemma encode_words_length (ws : List Nat) :
    (encode_words ws).length = 2 * ws.length := by
  induction ws with
  | nil => rfl
  | cons w ws ih => simp [encode_words, enc16, ih]; omega

lemma getD_append_length : ∀ (l₁ l₂ : List Nat) (k : Nat),
    (l₁ ++ l₂).getD (l₁.length + k) 0 = l₂.getD k 0 := by
  intro l₁
  induction l₁ with
  | nil => intro l₂ k; simp
  | cons a l ih =>
    intro l₂ k
    have e : (a :: l).length + k = (l.length + k) + 1 := by
      simp [List.length_cons]; omega
    rw [List.cons_append, e, List.getD_cons_succ]
    exact ih l₂ k

lemma trp_append_tx_eq (buf : List Nat) (w : Nat) (hne : ¬(buf.length = 0))
    (hlen : buf.length < UDP_PACKET_SIZE) :
    trp_append_tx buf w = some (buf ++ enc16 w) := by
  simp only [trp_append_tx, enc16]
  rw [if_neg hne, if_neg (Nat.not_le.mpr hlen)]

lemma trp_append_all_eq : ∀ (ws buf : List Nat), ¬(buf.length = 0) →
    buf.length + 2 * ws.length ≤ UDP_PACKET_SIZE →
    trp_append_all buf ws = some (buf ++ encode_words ws) := by
  intro ws
  induction ws with
  | nil => intro buf _ _; simp [trp_append_all, encode_words]
  | cons w ws ih =>
    intro buf hne hlen
    simp only [List.length_cons] at hlen
    have hlt : buf.length < UDP_PACKET_SIZE := by omega
    simp only [trp_append_all]
    rw [trp_append_tx_eq buf w hne hlt]
    have h2 : ¬((buf ++ enc16 w).length = 0) := by simp [enc16]
    have h3 : (buf ++ enc16 w).length + 2 * ws.length ≤ UDP_PACKET_SIZE := by
      simp only [List.length_append, enc16, List.length_cons, List.length_nil]
      omega
    show trp_append_all (buf ++ enc16 w) ws = _
    rw [ih (buf ++ enc16 w) h2 h3]
    simp [encode_words, List.append_assoc]

lemma trp_send_frame (W : List Nat) (h510 : W.length ≤ 510) :
    trp_send ([0, 0] ++ encode_words W) = enc16 W.length ++ encode_words W := by
  simp only [trp_send]
  have hblen : (([0, 0] : List Nat) ++ encode_words W).length = 2 + 2 * W.length := by
    simp [encode_words_length]
    omega
  rw [hblen]
  have hdata : ((2 + 2 * W.length) >>> 1 + 65535) % 65536 = W.length := by
    rw [Nat.shiftRight_eq_div_pow]
    norm_num
    omega
  rw [hdata]
  rw [show (([0, 0] : List Nat) ++ encode_words W).drop 2 = encode_words W from rfl]
  have hl : (2 + 2 * W.length) =
      ((W.length >>> 8) % 256 :: W.length % 256 :: encode_words W).length := by
    simp [encode_words_length]
    omega
  rw [hl, List.take_length]
  simp [enc16]

lemma trp_rx_len_frame (W : List Nat) (h510 : W.length ≤ 510) :
    trp_rx_len (enc16 W.length ++ encode_words W) = 2 * W.length + 4 := by
  simp only [trp_rx_len, enc16, List.cons_append, List.nil_append,
             List.getD_cons_zero, List.getD_cons_succ]
  rw [hi_byte_eq W.length (by omega), or_decode]
  omega

lemma trp_read_words_aux (L : Nat) :
    ∀ (ws front : List Nat),
      (∀ w ∈ ws, w < 65536) →
      ¬(front.length = 0) →
      front.length + 2 * ws.length ≤ L →
      trp_read_words (front ++ encode_words ws) L ws.length front.length = ws := by
  intro ws
  induction ws with
  | nil => intro front _ _ _; rfl
  | cons w ws ih =>
    intro front hw hne hlen
    simp only [List.length_cons] at hlen
    have hp : ¬(L ≤ front.length) := by omega
    simp only [trp_read_words, trp_get_rx_data]
    rw [if_neg hp, if_neg hne]
    have e0 : (front ++ encode_words (w :: ws)).getD (front.length) 0 =
        (w >>> 8) % 256 := by
      have h := getD_append_length front (encode_words (w :: ws)) 0
      simpa [encode_words, enc16] using h
    have e1 : (front ++ encode_words (w :: ws)).getD (front.length + 1) 0 =
        w % 256 := by
      have h := getD_append_length front (encode_words (w :: ws)) 1
      simpa [encode_words, enc16] using h
    congr 1
    · rw [e0, e1, hi_byte_eq w (hw w (by simp)), or_decode]
    · have hbuf : front ++ encode_words (w :: ws) =
          (front ++ enc16 w) ++ encode_words ws := by
        simp [encode_words, List.append_assoc]
      have hpos : front.length + 2 = (front ++ enc16 w).length := by
        simp [enc16]
      rw [hbuf, hpos]
      exact ih (front ++ enc16 w) (fun x hx => hw x (by simp [hx]))
        (by simp [enc16]) (by simp only [List.length_append, enc16,
          List.length_cons, List.length_nil]; omega)

/-- C8 (amended): for every sequence W of between 1 and 510 sixteen-bit
words, appending the words of W into a cleared TX buffer and sending
produces the frame "2-byte big-endian word count, then each word
big-endian", and a receiver holding that frame (rx_len as trp_receive
computes it) that calls trp_get_rx_data once per word reads back exactly
W.  The empty sequence is excluded: send with an empty TX buffer
transmits an empty frame with no count prefix. -/
theorem C8_transport_framing (W : List Nat)
    (hw : ∀ w ∈ W, w < 65536) (h1 : 1 ≤ W.length) (h510 : W.length ≤ 510) :
    trp_append_all [] W = some ([0, 0] ++ encode_words W) ∧
    trp_send ([0, 0] ++ encode_words W) = enc16 W.length ++ encode_words W ∧
    trp_rx_len (enc16 W.length ++ encode_words W) = 2 * W.length + 4 ∧
    trp_read_words (enc16 W.length ++ encode_words W)
      (trp_rx_len (enc16 W.length ++ encode_words W)) W.length 0 = W := by
  refine ⟨?_, trp_send_frame W h510, trp_rx_len_frame W h510, ?_⟩
  · cases W with
    | nil => simp at h1
    | cons w ws =>
      simp only [trp_append_all]
      have htx : trp_append_tx [] w = some ([0, 0] ++ enc16 w) := by
        simp [trp_append_tx, enc16, UDP_PACKET_SIZE]
      rw [htx]
      have h2 : ¬((([0, 0] : List Nat) ++ enc16 w).length = 0) := by simp
      have h3 : (([0, 0] : List Nat) ++ enc16 w).length + 2 * ws.length ≤
          UDP_PACKET_SIZE := by
        simp only [List.length_append, List.length_cons, List.length_nil,
                   enc16, UDP_PACKET_SIZE]
        simp only [List.length_cons] at h510
        omega
      show trp_append_all ([0, 0] ++ enc16 w) ws = _
      rw [trp_append_all_eq ws ([0, 0] ++ enc16 w) h2 h3]
      simp [encode_words, List.append_assoc]
  · rw [trp_rx_len_frame W h510]
    cases W with
    | nil => simp at h1
    | cons w ws =>
      have hL0 : ¬(2 * (w :: ws).length + 4 ≤ 0) := by simp
      simp only [trp_read_words, trp_get_rx_data]
      rw [if_neg hL0]
      simp only [if_true]
      have e0 : (enc16 (w :: ws).length ++ encode_words (w :: ws)).getD 2 0 =
          (w >>> 8) % 256 := by
        have h := getD_append_length (enc16 (w :: ws).length)
          (encode_words (w :: ws)) 0
        simpa [encode_words, enc16] using h
      have e1 : (enc16 (w :: ws).length ++ encode_words (w :: ws)).getD 3 0 =
          w % 256 := by
        have h := getD_append_length (enc16 (w :: ws).length)
          (encode_words (w :: ws)) 1
        simpa [encode_words, enc16] using h
      congr 1
      · rw [e0, e1, hi_byte_eq w (hw w (by simp)), or_decode]
      · have hbuf : enc16 (w :: ws).length ++ encode_words (w :: ws) =
            (enc16 (w :: ws).length ++ enc16 w) ++ encode_words ws := by
          simp [encode_words, List.append_assoc]
        have hpos : (2 + 2 : Nat) = (enc16 (w :: ws).length ++ enc16 w).length := by
          simp [enc16]
        rw [hbuf, hpos]
        exact trp_read_words_aux (2 * (w :: ws).length + 4) ws
          (enc16 (w :: ws).length ++ enc16 w)
          (fun x hx => hw x (by simp [hx]))
          (by simp [enc16])
          (by simp only [List.length_append, enc16, List.length_cons,
                List.length_nil]; omega)

/-- C8 counterexample: for the empty word sequence, send transmits an
empty frame, not a frame carrying a 2-byte word count of zero, so the
claimed frame shape fails at W = []. -/
theorem C8_counterexample :
    trp_append_all [] [] = some [] ∧ trp_send [] = [] ∧
    trp_send [] ≠ enc16 0 ++ encode_words [] :=
  ⟨rfl, rfl, by decide⟩

/-- C8 witness: the framing round trip evaluated at W = [0x1234, 0x5678]. -/
theorem C8_witness :
    trp_read_words (enc16 2 ++ encode_words [0x1234, 0x5678])
      (trp_rx_len (enc16 2 ++ encode_words [0x1234, 0x5678])) 2 0 =
    [0x1234, 0x5678] :=
  (C8_transport_framing [0x1234, 0x5678] (by decide) (by decide)
    (by decide)).2.2.2

end Palo
